import Mathlib

/-!
Verification of the document-status aggregation and delivery-notification
logic of an admin dashboard for a document-delivery e-commerce flow.

The definitions below are a shallow embedding of the TypeScript source:

* `getProjectDocuments`, `addOrder`, `updateOrderStatus`,
  `deleteProjectDocument`, `sendProjectDocumentsForOrder` and
  `sendProjectDocuments` embed the functions of the same names in
  `src/context/ProjectContext.tsx`.  The React state of the provider
  (the `orders` and `projectDocuments` arrays) is made explicit as a
  `ProviderState` value; the outcome of the external database insert and
  of the external email call (`sendDocumentDelivery` in
  `src/utils/email.ts`, out of scope) are passed in as parameters, and
  the notification calls a function makes are returned as an explicit
  list of payloads.
* `documentStatusFor` / `documentStatuses` embed the `documentStatuses`
  `useMemo` computation of
  `src/pages/admin/AdminDocumentStatusPage copy.tsx`, including the
  four-way status classification.

The backing Supabase tables store snake_case columns; the context layer
duplicates them as camelCase fields on the same object.  The embedding
keeps one field per datum (camelCase for orders, snake_case for
documents, following which spelling the logic under verification reads).
-/

namespace DocDelivery

/-- A row of `project_documents` as held in the provider's
`projectDocuments` state (snake_case, as the code reads it). -/
structure ProjectDocument where
  id : String
  project_id : String
  name : String
  url : String
  document_category : String
  review_stage : String
  size : Nat
  is_active : Bool
  created_at : String
  updated_at : String
  deriving Repr, DecidableEq

/-- An order as held in the provider's `orders` state.  The code reads
the camelCase aliases (`projectId`, `customerName`, ...), which the
fetch/insert paths copy from the snake_case columns. -/
structure Order where
  id : String
  customerName : String
  customerEmail : String
  projectId : String
  projectTitle : String
  price : Int
  status : String
  createdAt : String
  updatedAt : String
  deriving Repr, DecidableEq

/-- The in-memory state of the `ProjectProvider` context that the logic
under verification reads and writes. -/
structure ProviderState where
  orders : List Order
  projectDocuments : List ProjectDocument
  deriving Repr, DecidableEq

/-- `getProjectDocuments` of `ProjectContext.tsx`: the documents of the
given project that are still active. -/
def getProjectDocuments (s : ProviderState) (projectId : String) : List ProjectDocument :=
  s.projectDocuments.filter (fun doc => doc.project_id == projectId && doc.is_active)

/-- `getDocumentsByReviewStage` of `ProjectContext.tsx`. -/
def getDocumentsByReviewStage (s : ProviderState) (projectId reviewStage : String) : List ProjectDocument :=
  s.projectDocuments.filter
    (fun doc => doc.project_id == projectId && doc.review_stage == reviewStage && doc.is_active)

/-- The row computed per order by the `documentStatuses` memo of
`AdminDocumentStatusPage copy.tsx`. -/
structure DocumentStatus where
  orderId : String
  customerName : String
  customerEmail : String
  projectTitle : String
  orderDate : String
  status : String
  documentsCount : Nat
  review_1 : Nat
  review_2 : Nat
  review_3 : Nat
  lastDeliveryDate : Option String
  deriving Repr, DecidableEq

/-- The four-way status decision inlined in the `documentStatuses` memo:
`no-documents` when the project has no active documents, else
`delivered` for completed orders, `pending` for pending orders, and
`partial` otherwise. -/
def classifyOrderStatus (orderStatus : String) (totalDocuments : Nat) : String :=
  if totalDocuments = 0 then "no-documents"
  else if orderStatus = "completed" ∧ totalDocuments > 0 then "delivered"
  else if totalDocuments > 0 ∧ orderStatus = "pending" then "pending"
  else "partial"

/-- The body of the `orders.map` in the `documentStatuses` memo: joins
one order against its project's active documents, counts them per
review stage and classifies the order. -/
def documentStatusFor (s : ProviderState) (order : Order) : DocumentStatus :=
  let documents := getProjectDocuments s order.projectId
  let totalDocuments := documents.length
  let review1 := (documents.filter (fun doc => doc.review_stage == "review_1")).length
  let review2 := (documents.filter (fun doc => doc.review_stage == "review_2")).length
  let review3 := (documents.filter (fun doc => doc.review_stage == "review_3")).length
  let status := classifyOrderStatus order.status totalDocuments
  { orderId := order.id
    customerName := order.customerName
    customerEmail := order.customerEmail
    projectTitle := order.projectTitle
    orderDate := order.createdAt
    status := status
    documentsCount := totalDocuments
    review_1 := review1
    review_2 := review2
    review_3 := review3
    lastDeliveryDate := if status = "delivered" then some order.updatedAt else none }

/-- The `documentStatuses` memo of `AdminDocumentStatusPage copy.tsx`:
one derived status row per order. -/
def documentStatuses (s : ProviderState) : List DocumentStatus :=
  s.orders.map (documentStatusFor s)

/-- One entry of the `documents` array of the email payload built by
`sendProjectDocumentsForOrder` (the `formattedDocuments` map). -/
structure FormattedDocument where
  name : String
  url : String
  category : String
  review_stage : String
  size : Nat
  deriving Repr, DecidableEq

/-- The element-wise body of the `formattedDocuments` map in
`sendProjectDocumentsForOrder`. -/
def formatDocument (doc : ProjectDocument) : FormattedDocument :=
  { name := doc.name
    url := doc.url
    category := doc.document_category
    review_stage := doc.review_stage
    size := doc.size }

/-- The structured payload handed to the external `sendDocumentDelivery`
email call. -/
structure DeliveryPayload where
  project_title : String
  customer_name : String
  customer_email : String
  order_id : String
  documents : List FormattedDocument
  access_expires : String
  deriving Repr, DecidableEq

/-- Whether the external email transport accepts or rejects the payload.
The transport is out of scope, so its outcome is a parameter of the
embedding. -/
inductive NotifyOutcome where
  | success : NotifyOutcome
  | failure : String → NotifyOutcome
  deriving Repr, DecidableEq

/-- Modelled from the spec: the outbound email transport
(`sendDocumentDelivery` of `src/utils/email.ts`, which is not part of
the repository snapshot) is "an opaque function that accepts a
structured payload and returns success/failure".  The embedding records
the call it makes (the payload, first component) together with its
success or failure (second component), driven by the `outcome`
parameter. -/
def sendDocumentDelivery (outcome : NotifyOutcome) (payload : DeliveryPayload) :
    List DeliveryPayload × Except String Unit :=
  match outcome with
  | NotifyOutcome.success => ([payload], Except.ok ())
  | NotifyOutcome.failure msg => ([payload], Except.error msg)

/-- The payload assembled by `sendProjectDocumentsForOrder`: the active
documents of the order's project formatted for email, `access_expires`
fixed. -/
def deliveryPayloadFor (s : ProviderState) (order : Order)
    (customerEmail customerName : String) : DeliveryPayload :=
  { project_title := order.projectTitle
    customer_name := customerName
    customer_email := customerEmail
    order_id := order.id
    documents := (getProjectDocuments s order.projectId).map formatDocument
    access_expires := "Never (lifetime access)" }

/-- `sendProjectDocumentsForOrder` of `ProjectContext.tsx`: assembles the
manifest of the order's project (even if empty) and performs exactly one
`sendDocumentDelivery` call; its `try`/`catch` logs and rethrows, so the
call's error propagates unchanged. -/
def sendProjectDocumentsForOrder (s : ProviderState) (outcome : NotifyOutcome)
    (order : Order) (customerEmail customerName : String) :
    List DeliveryPayload × Except String Unit :=
  sendDocumentDelivery outcome (deliveryPayloadFor s order customerEmail customerName)

/-- The argument of `addOrder`: an order without `id`, `created_at`,
`updated_at` (those are produced by the database). -/
structure OrderInput where
  customerName : String
  customerEmail : String
  projectId : String
  projectTitle : String
  price : Int
  status : String
  deriving Repr, DecidableEq

/-- What one `addOrder` call did: the provider state it left behind, the
notification calls it made (in order), and what it returned or threw. -/
structure AddOrderOutcome where
  newState : ProviderState
  notificationsSent : List DeliveryPayload
  result : Except String Order
  deriving Repr

/-- `addOrder` of `ProjectContext.tsx`.  `insertResult` is the outcome of
the external database insert (`Except.ok` carries the inserted row,
already converted back to camelCase).  On insert error the function
throws and nothing else happens.  On success the new order is appended
to the `orders` state and `sendProjectDocumentsForOrder` is invoked once;
its failure is caught, logged only, and the order is still returned. -/
def addOrder (s : ProviderState) (order : OrderInput)
    (insertResult : Except String Order) (outcome : NotifyOutcome) : AddOrderOutcome :=
  match insertResult with
  | Except.error e =>
      { newState := s, notificationsSent := [], result := Except.error e }
  | Except.ok convertedOrder =>
      let s2 : ProviderState := { s with orders := s.orders ++ [convertedOrder] }
      let sendRes :=
        sendProjectDocumentsForOrder s2 outcome convertedOrder
          order.customerEmail order.customerName
      match sendRes.2 with
      | Except.ok _ =>
          { newState := s2, notificationsSent := sendRes.1, result := Except.ok convertedOrder }
      | Except.error _ =>
          { newState := s2, notificationsSent := sendRes.1, result := Except.ok convertedOrder }

/-- The errors `sendProjectDocuments` can throw: its own
`Error('Order not found')`, or whatever the notifier call threw. -/
inductive SendError where
  | orderNotFound : SendError
  | notifierError : String → SendError
  deriving Repr, DecidableEq

/-- `sendProjectDocuments` of `ProjectContext.tsx`: looks the order up by
id in the `orders` state, throws `Order not found` when absent, and
otherwise delegates to `sendProjectDocumentsForOrder` (rethrowing its
error). -/
def sendProjectDocuments (s : ProviderState) (outcome : NotifyOutcome)
    (orderId customerEmail customerName : String) :
    List DeliveryPayload × Except SendError Unit :=
  match s.orders.find? (fun o => o.id == orderId) with
  | none => ([], Except.error SendError.orderNotFound)
  | some order =>
      let sendRes := sendProjectDocumentsForOrder s outcome order customerEmail customerName
      match sendRes.2 with
      | Except.ok _ => (sendRes.1, Except.ok ())
      | Except.error msg => (sendRes.1, Except.error (SendError.notifierError msg))

/-- `updateOrderStatus` of `ProjectContext.tsx`.  `dbError` is whether
the external database update failed; on failure the function returns
early and the local state is untouched.  On success only the `status`
field of the matching orders is replaced locally (the database row also
gets a fresh `updated_at`, but the local copy does not). -/
def updateOrderStatus (s : ProviderState) (id status : String) (dbError : Bool) : ProviderState :=
  if dbError then s
  else
    { s with
      orders := s.orders.map (fun order =>
        if order.id == id then { order with status := status } else order) }

/-- `deleteProjectDocument` of `ProjectContext.tsx`: the database row is
soft-deleted (`is_active := false`); the local state drops the document
entirely. -/
def deleteProjectDocument (s : ProviderState) (id : String) (dbError : Bool) : ProviderState :=
  if dbError then s
  else { s with projectDocuments := s.projectDocuments.filter (fun doc => doc.id != id) }

/-- The classification function as the spec's words state it:
`no-documents` if zero active documents exist; else `delivered` if order
status is "completed"; else `pending` if order status is "pending"; else
`partial`.  Kept separate from `classifyOrderStatus` (which is
translated from the code) so the two can be compared. -/
def specClassification (orderStatus : String) (activeDocCount : Nat) : String :=
  if activeDocCount = 0 then "no-documents"
  else if orderStatus = "completed" then "delivered"
  else if orderStatus = "pending" then "pending"
  else "partial"

/-- C1: for every order, the derived document status is computed from the
order's lifecycle status and the active documents of the order's project
exactly as the spec's classification function states: `no-documents`
when zero active documents exist, else `delivered` when the order is
"completed", else `pending` when the order is "pending", else
`partial`. -/
theorem c1_classification_matches_spec (s : ProviderState) (order : Order) :
    (documentStatusFor s order).status =
      specClassification order.status (getProjectDocuments s order.projectId).length := by
  simp only [documentStatusFor, classifyOrderStatus, specClassification]
  split_ifs <;> simp_all

/-- C2: a successful insert triggers exactly one `sendDocumentDelivery`
call (whatever the document manifest and whatever the notifier then
does), and a failed insert triggers none. -/
theorem c2_notification_exactly_once_per_insert (s : ProviderState) (inp : OrderInput)
    (outcome : NotifyOutcome) (data : Order) (e : String) :
    (addOrder s inp (Except.ok data) outcome).notificationsSent.length = 1 ∧
    (addOrder s inp (Except.error e) outcome).notificationsSent = [] := by
  cases outcome <;> exact ⟨rfl, rfl⟩

/-- C3: when the insert succeeded and the notification call then fails,
`addOrder` still returns the inserted order (no error propagates), the
order is in the resulting `orders` state, only one notification call was
made (no retry), and the resulting state is the same as it would have
been had the notification succeeded. -/
theorem c3_notifier_failure_swallowed (s : ProviderState) (inp : OrderInput)
    (data : Order) (msg : String) :
    (addOrder s inp (Except.ok data) (NotifyOutcome.failure msg)).result = Except.ok data ∧
    data ∈ (addOrder s inp (Except.ok data) (NotifyOutcome.failure msg)).newState.orders ∧
    (addOrder s inp (Except.ok data) (NotifyOutcome.failure msg)).notificationsSent.length = 1 ∧
    (addOrder s inp (Except.ok data) (NotifyOutcome.failure msg)).newState =
      (addOrder s inp (Except.ok data) NotifyOutcome.success).newState := by
  refine ⟨rfl, ?_, rfl, rfl⟩
  show data ∈ s.orders ++ [data]
  simp

/-- C4: the notification sent for a freshly inserted order carries as its
`documents` field exactly the full manifest of the order's project — all
active documents whose `project_id` is the order's `projectId`, each
mapped to its name, url, category, review stage and size — and the
notification is sent even when that manifest is empty. -/
theorem c4_payload_is_full_manifest (s : ProviderState) (inp : OrderInput)
    (data : Order) (outcome : NotifyOutcome) :
    (addOrder s inp (Except.ok data) outcome).notificationsSent =
      [{ project_title := data.projectTitle
         customer_name := inp.customerName
         customer_email := inp.customerEmail
         order_id := data.id
         documents := (s.projectDocuments.filter
             (fun doc => doc.project_id == data.projectId && doc.is_active)).map
           (fun doc =>
             { name := doc.name
               url := doc.url
               category := doc.document_category
               review_stage := doc.review_stage
               size := doc.size })
         access_expires := "Never (lifetime access)" }] := by
  cases outcome <;> rfl

/-- C5: the classification is a pure function of the pair (order status,
count of the project's active documents): two orders in possibly
different states that agree on those two values are classified the same,
whatever their other fields and whatever the documents look like. -/
theorem c5_classification_pure_in_status_and_count
    (s1 s2 : ProviderState) (o1 o2 : Order)
    (hstatus : o1.status = o2.status)
    (hcount : (getProjectDocuments s1 o1.projectId).length =
      (getProjectDocuments s2 o2.projectId).length) :
    (documentStatusFor s1 o1).status = (documentStatusFor s2 o2).status := by
  simp only [documentStatusFor]
  rw [hstatus, hcount]

/-- Sample documents and orders used to instantiate the theorems that
carry hypotheses. -/
def wDoc1 : ProjectDocument :=
  { id := "d1", project_id := "p1", name := "Design notes", url := "https://files/d1"
    document_category := "design", review_stage := "review_1", size := 120
    is_active := true, created_at := "2025-01-01", updated_at := "2025-01-02" }

def wDoc2 : ProjectDocument :=
  { id := "d2", project_id := "p1", name := "Old draft", url := "https://files/d2"
    document_category := "draft", review_stage := "review_2", size := 80
    is_active := false, created_at := "2025-01-01", updated_at := "2025-01-03" }

def wDoc3 : ProjectDocument :=
  { id := "d3", project_id := "p2", name := "Report", url := "https://files/d3"
    document_category := "report", review_stage := "review_3", size := 512
    is_active := true, created_at := "2025-02-01", updated_at := "2025-02-01" }

def wOrder1 : Order :=
  { id := "o1", customerName := "Ada", customerEmail := "ada@example.com"
    projectId := "p1", projectTitle := "Project One", price := 49
    status := "pending", createdAt := "2025-03-01", updatedAt := "2025-03-01" }

def wOrder2 : Order :=
  { id := "o2", customerName := "Grace", customerEmail := "grace@example.com"
    projectId := "p2", projectTitle := "Project Two", price := 99
    status := "pending", createdAt := "2025-03-02", updatedAt := "2025-03-05" }

def wState : ProviderState :=
  { orders := [wOrder1, wOrder2], projectDocuments := [wDoc1, wDoc2, wDoc3] }

theorem c5_witness :
    wOrder1.status = wOrder2.status ∧
    (getProjectDocuments wState wOrder1.projectId).length =
      (getProjectDocuments wState wOrder2.projectId).length ∧
    (documentStatusFor wState wOrder1).status = (documentStatusFor wState wOrder2).status :=
  ⟨rfl, by decide,
    c5_classification_pure_in_status_and_count wState wState wOrder1 wOrder2 rfl (by decide)⟩

/-- The per-stage counts of a list of documents whose review stages all
lie in the three known stages partition its length. -/
theorem three_stage_partition (l : List ProjectDocument)
    (h : ∀ doc ∈ l, doc.review_stage = "review_1" ∨ doc.review_stage = "review_2" ∨
      doc.review_stage = "review_3") :
    (l.filter (fun doc => doc.review_stage == "review_1")).length
      + (l.filter (fun doc => doc.review_stage == "review_2")).length
      + (l.filter (fun doc => doc.review_stage == "review_3")).length = l.length := by
  induction l with
  | nil => rfl
  | cons d t ih =>
    have hd := h d (List.mem_cons_self d t)
    have ht := ih (fun x hx => h x (List.mem_cons_of_mem d hx))
    rcases hd with h1 | h1 | h1 <;> simp [List.filter_cons, h1] <;> omega

/-- C6: per order, the derived row counts all active documents of the
order's project (`documentsCount`) and, per review stage, the active
documents tagged with that stage; when every active document of the
project is tagged `review_1`, `review_2` or `review_3`, the three
per-stage counts sum to `documentsCount`. -/
theorem c6_counts_per_stage (s : ProviderState) (order : Order) :
    (documentStatusFor s order).documentsCount =
      s.projectDocuments.countP (fun doc => doc.project_id == order.projectId && doc.is_active) ∧
    (documentStatusFor s order).review_1 =
      s.projectDocuments.countP (fun doc =>
        doc.project_id == order.projectId && doc.is_active && doc.review_stage == "review_1") ∧
    (documentStatusFor s order).review_2 =
      s.projectDocuments.countP (fun doc =>
        doc.project_id == order.projectId && doc.is_active && doc.review_stage == "review_2") ∧
    (documentStatusFor s order).review_3 =
      s.projectDocuments.countP (fun doc =>
        doc.project_id == order.projectId && doc.is_active && doc.review_stage == "review_3") ∧
    ((∀ doc ∈ getProjectDocuments s order.projectId,
        doc.review_stage = "review_1" ∨ doc.review_stage = "review_2" ∨
          doc.review_stage = "review_3") →
      (documentStatusFor s order).review_1 + (documentStatusFor s order).review_2
        + (documentStatusFor s order).review_3 = (documentStatusFor s order).documentsCount) := by
  have hand : ∀ a b c : Bool, (c && (a && b)) = (a && b && c) := by decide
  refine ⟨?_, ?_, ?_, ?_, ?_⟩
  · simp only [documentStatusFor, getProjectDocuments]
    rw [List.countP_eq_length_filter]
  · simp only [documentStatusFor, getProjectDocuments, List.filter_filter]
    rw [List.countP_eq_length_filter]
    congr 1
    exact List.filter_congr (fun doc _ => hand _ _ _)
  · simp only [documentStatusFor, getProjectDocuments, List.filter_filter]
    rw [List.countP_eq_length_filter]
    congr 1
    exact List.filter_congr (fun doc _ => hand _ _ _)
  · simp only [documentStatusFor, getProjectDocuments, List.filter_filter]
    rw [List.countP_eq_length_filter]
    congr 1
    exact List.filter_congr (fun doc _ => hand _ _ _)
  · intro h
    simp only [documentStatusFor]
    exact three_stage_partition (getProjectDocuments s order.projectId) h

/-- C7: the classifier is total and its four states are mutually
exclusive and exhaustive over the input pair (order status, active
document count): every order lands in exactly one of `no-documents`,
`delivered`, `pending`, `partial`, characterised by the stated
conditions. -/
theorem c7_four_states_partition (s : ProviderState) (order : Order) :
    ((documentStatusFor s order).status = "no-documents" ∨
      (documentStatusFor s order).status = "delivered" ∨
      (documentStatusFor s order).status = "pending" ∨
      (documentStatusFor s order).status = "partial") ∧
    ((documentStatusFor s order).status = "no-documents" ↔
      (getProjectDocuments s order.projectId).length = 0) ∧
    ((documentStatusFor s order).status = "delivered" ↔
      0 < (getProjectDocuments s order.projectId).length ∧ order.status = "completed") ∧
    ((documentStatusFor s order).status = "pending" ↔
      0 < (getProjectDocuments s order.projectId).length ∧ order.status = "pending") ∧
    ((documentStatusFor s order).status = "partial" ↔
      0 < (getProjectDocuments s order.projectId).length ∧
        order.status ≠ "completed" ∧ order.status ≠ "pending") := by
  simp only [documentStatusFor, classifyOrderStatus]
  split_ifs with h1 h2 h3
  · simp_all
  · simp_all
  · simp_all
  · have hn : 0 < (getProjectDocuments s order.projectId).length := Nat.pos_of_ne_zero h1
    have hc : order.status ≠ "completed" := fun hcomp => h2 ⟨hcomp, hn⟩
    have hp : order.status ≠ "pending" := fun hpend => h3 ⟨hn, hpend⟩
    simp_all

/-- C8: `getProjectDocuments` returns exactly the documents of the state
whose `project_id` is the requested project and whose `is_active` flag
is set; an inactive (soft-deleted) document is never among them, and
every entry of a notification manifest comes from an active document of
the order's project. -/
theorem c8_get_project_documents_active (s : ProviderState) (projectId : String)
    (doc : ProjectDocument) (order : Order) (customerEmail customerName : String) :
    (doc ∈ getProjectDocuments s projectId ↔
      doc ∈ s.projectDocuments ∧ doc.project_id = projectId ∧ doc.is_active = true) ∧
    (doc.is_active = false → doc ∉ getProjectDocuments s projectId) ∧
    (∀ fd ∈ (deliveryPayloadFor s order customerEmail customerName).documents,
      ∃ d ∈ s.projectDocuments,
        d.is_active = true ∧ d.project_id = order.projectId ∧ fd = formatDocument d) := by
  have hmem_iff : doc ∈ getProjectDocuments s projectId ↔
      doc ∈ s.projectDocuments ∧ doc.project_id = projectId ∧ doc.is_active = true := by
    simp [getProjectDocuments, List.mem_filter]
  refine ⟨hmem_iff, ?_, ?_⟩
  · intro hfalse hmem
    have := (hmem_iff.mp hmem).2.2
    rw [hfalse] at this
    cases this
  · intro fd hfd
    simp only [deliveryPayloadFor, List.mem_map] at hfd
    obtain ⟨d, hd, rfl⟩ := hfd
    have hd' := List.mem_filter.mp hd
    have hcond := hd'.2
    simp only [Bool.and_eq_true, beq_iff_eq] at hcond
    exact ⟨d, hd'.1, hcond.2, hcond.1, rfl⟩

/-- C9: `sendProjectDocuments` fails with `Order not found` exactly when
no order in the state has the requested id; when the lookup finds the
order, the one notification call it makes carries the same payload as
the order-creation notifier builds for that order (the full
active-document manifest of the order's project). -/
theorem c9_send_project_documents_lookup (s : ProviderState) (outcome : NotifyOutcome)
    (orderId customerEmail customerName : String) :
    ((sendProjectDocuments s outcome orderId customerEmail customerName).2 =
        Except.error SendError.orderNotFound ↔ ∀ o ∈ s.orders, o.id ≠ orderId) ∧
    (∀ o : Order, s.orders.find? (fun x => x.id == orderId) = some o →
      (sendProjectDocuments s outcome orderId customerEmail customerName).1 =
        [deliveryPayloadFor s o customerEmail customerName]) := by
  rcases hfind : s.orders.find? (fun o => o.id == orderId) with _ | o
  · have hnone := List.find?_eq_none.mp hfind
    constructor
    · apply iff_of_true
      · simp [sendProjectDocuments, hfind]
      · intro o ho
        simpa using hnone o ho
    · intro o ho
      rw [hfind] at ho
      cases ho
  · have hmem := List.mem_of_find?_eq_some hfind
    have hid : o.id = orderId := by simpa using List.find?_some hfind
    constructor
    · apply iff_of_false
      · simp only [sendProjectDocuments, hfind]
        cases outcome <;> simp [sendProjectDocumentsForOrder, sendDocumentDelivery]
      · intro hall
        exact hall o hmem hid
    · intro o2 ho2
      rw [hfind] at ho2
      cases ho2
      simp only [sendProjectDocuments, hfind]
      cases outcome <;> rfl

/-- C10: a successful `updateOrderStatus` leaves the document state
alone, keeps the orders list the same length, replaces only the `status`
field of the order with the given id (every other field, `updatedAt`
included, is untouched locally), and leaves every order with a
different id completely unchanged. -/
theorem c10_update_order_status_frame (s : ProviderState) (id status : String) :
    (updateOrderStatus s id status false).projectDocuments = s.projectDocuments ∧
    (updateOrderStatus s id status false).orders.length = s.orders.length ∧
    (∀ (i : Nat) (h : i < s.orders.length)
        (h2 : i < (updateOrderStatus s id status false).orders.length),
      (((s.orders.get ⟨i, h⟩).id = id →
        ((updateOrderStatus s id status false).orders.get ⟨i, h2⟩).status = status ∧
        ((updateOrderStatus s id status false).orders.get ⟨i, h2⟩).id =
          (s.orders.get ⟨i, h⟩).id ∧
        ((updateOrderStatus s id status false).orders.get ⟨i, h2⟩).customerName =
          (s.orders.get ⟨i, h⟩).customerName ∧
        ((updateOrderStatus s id status false).orders.get ⟨i, h2⟩).customerEmail =
          (s.orders.get ⟨i, h⟩).customerEmail ∧
        ((updateOrderStatus s id status false).orders.get ⟨i, h2⟩).projectId =
          (s.orders.get ⟨i, h⟩).projectId ∧
        ((updateOrderStatus s id status false).orders.get ⟨i, h2⟩).projectTitle =
          (s.orders.get ⟨i, h⟩).projectTitle ∧
        ((updateOrderStatus s id status false).orders.get ⟨i, h2⟩).price =
          (s.orders.get ⟨i, h⟩).price ∧
        ((updateOrderStatus s id status false).orders.get ⟨i, h2⟩).createdAt =
          (s.orders.get ⟨i, h⟩).createdAt ∧
        ((updateOrderStatus s id status false).orders.get ⟨i, h2⟩).updatedAt =
          (s.orders.get ⟨i, h⟩).updatedAt) ∧
      ((s.orders.get ⟨i, h⟩).id ≠ id →
        (updateOrderStatus s id status false).orders.get ⟨i, h2⟩ = s.orders.get ⟨i, h⟩))) := by
  refine ⟨rfl, by simp [updateOrderStatus], ?_⟩
  intro i h h2
  have hget : (updateOrderStatus s id status false).orders.get ⟨i, h2⟩ =
      (fun order => if order.id == id then { order with status := status } else order)
        (s.orders.get ⟨i, h⟩) := by
    simp [updateOrderStatus]
  constructor
  · intro hid
    rw [hget]
    simp only [List.get_eq_getElem] at hid ⊢
    simp [hid]
  · intro hne
    rw [hget]
    simp only [List.get_eq_getElem] at hne ⊢
    simp [hne]

end DocDelivery
